import Mathlib

/-!
Verification of the GigaConference video-conferencing client
(`src/App.tsx`, `src/services/liveClient.ts`, `src/services/firebase.ts`).

The development shallowly embeds the program:
* pure helpers of `liveClient.ts` (`downsample`, `encode`, `decode`) become
  Lean functions over `List ℚ` / `List Nat`;
* the stateful client (`App.tsx` handlers, `LiveClient`) becomes explicit
  state-passing functions that also return the list of external effects
  (store writes, alerts, console logs) they would perform;
* browser platform primitives used by the code (`btoa`, `atob`) are embedded
  from their standard specified behaviour.

The spec's peer-mesh core (Negotiation Engine, Topology Reconciler,
Media Track Controller) has no implementation in the repository's sources;
those components are modelled from the spec, each such definition carrying a
`Modelled from the spec:` doc comment.
-/

namespace Hype

/-! ## Base64 platform primitives (`btoa` / `atob`)

`liveClient.ts` `encode`/`decode` call the browser's `btoa`/`atob`.
We embed those from the standard Base64 definition (RFC 4648 alphabet,
3-byte groups to 4 characters, `=` padding). A JS string is represented by
its list of UTF-16 code units (`List Nat`). -/

/-- The Base64 alphabet: sextet value (0–63) to character. -/
def b64chr (n : Nat) : Char :=
  "ABCDEFGHIJKLMNOPQRSTUVWXYZabcdefghijklmnopqrstuvwxyz0123456789+/".toList.getD n 'A'

/-- Inverse of the Base64 alphabet: character to sextet value. -/
def b64idx (c : Char) : Nat :=
  ("ABCDEFGHIJKLMNOPQRSTUVWXYZabcdefghijklmnopqrstuvwxyz0123456789+/".toList.indexOf c)

/-- The browser's `btoa`: Base64-encode a binary string (list of code
units, each required to be < 256). Processes 3 bytes into 4 characters,
padding the final group with `=`. -/
def btoa : List Nat → List Char
  | [] => []
  | [a] => [b64chr (a / 4), b64chr (a % 4 * 16), '=', '=']
  | [a, b] => [b64chr (a / 4), b64chr (a % 4 * 16 + b / 16), b64chr (b % 16 * 4), '=']
  | a :: b :: c :: rest =>
      b64chr (a / 4) :: b64chr (a % 4 * 16 + b / 16) ::
      b64chr (b % 16 * 4 + c / 64) :: b64chr (c % 64) :: btoa rest

/-- The browser's `atob`: decode a Base64 string back to a binary string
(list of code units). A final group `xx==` yields one byte, `xxx=` two
bytes, and a full group of four characters three bytes. -/
def atob : List Char → List Nat
  | c1 :: c2 :: c3 :: c4 :: rest =>
      if c3 = '=' ∧ c4 = '=' ∧ rest = [] then
        [b64idx c1 * 4 + b64idx c2 / 16]
      else if c4 = '=' ∧ rest = [] then
        [b64idx c1 * 4 + b64idx c2 / 16, b64idx c2 % 16 * 16 + b64idx c3 / 4]
      else
        (b64idx c1 * 4 + b64idx c2 / 16) :: (b64idx c2 % 16 * 16 + b64idx c3 / 4) ::
        (b64idx c3 % 4 * 64 + b64idx c4) :: atob rest
  | _ => []

/-! ## `liveClient.ts` audio helpers -/

/-- `String.fromCharCode`: a code point is taken modulo 2^16. -/
def fromCharCode (n : Nat) : Nat := n % 65536

/-- `encode` (liveClient.ts:27-34): builds the binary string whose
characters are the bytes of the input (`String.fromCharCode` per byte),
then Base64-encodes it with `btoa`. -/
def encode (bytes : List Nat) : List Char :=
  btoa (bytes.map fromCharCode)

/-- `decode` (liveClient.ts:36-44): `atob` the Base64 string, then read
each character's code (`charCodeAt`) into a byte array. Reading the code
units of the decoded binary string is the identity on our representation. -/
def decode (base64 : List Char) : List Nat :=
  atob base64

/-- JavaScript `Math.round`: round half towards positive infinity. -/
def jsRound (q : ℚ) : ℤ := ⌊q + 1 / 2⌋

/-- `downsample` (liveClient.ts:16-25). Samples are rationals (stand-ins
for the doubles of `Float32Array`); rates are rationals. Out-of-range
reads default to `0` (they are provably unreachable for positive rates). -/
def downsample (buffer : List ℚ) (inputRate outputRate : ℚ) : List ℚ :=
  if inputRate = outputRate then buffer
  else
    let ratio := inputRate / outputRate
    let newLength := (jsRound ((buffer.length : ℚ) / ratio)).toNat
    (List.range newLength).map
      (fun (i : Nat) => buffer.getD (⌊(i : ℚ) * ratio⌋).toNat 0)

/-! ## `LiveClient` (liveClient.ts:65-231)

The client's private fields become a record; browser handles (audio
contexts, streams, script processors, sessions) are opaque `Nat` ids.
External outcomes (microphone acquisition, live-session initiation) are
passed in as parameters; the externally visible actions are returned as an
effect trace. -/

structure LiveClientState where
  inputAudioContext : Option Nat
  outputAudioContext : Option Nat
  stream : Option Nat
  processor : Option Nat
  source : Option Nat
  nextStartTime : ℚ
  isConnected : Bool
  sessionPromise : Option Nat
  deriving DecidableEq, Repr

/-- The initial field values of a freshly constructed `LiveClient`
(liveClient.ts:67-74). -/
def LiveClientState.initial : LiveClientState :=
  { inputAudioContext := none, outputAudioContext := none, stream := none,
    processor := none, source := none, nextStartTime := 0,
    isConnected := false, sessionPromise := none }

/-- Externally visible actions of the `LiveClient`. -/
inductive LiveEffect
  | createAudioContext
  | resumeAudioContext
  | getUserMediaCall
  | liveConnectCall
  | consoleError (msg : String)
  | closeSession
  | stopStreamTracks
  | closeAudioContexts
  deriving DecidableEq, Repr

/-- `LiveClient.disconnect` (liveClient.ts:201-230): a no-op when neither
connected nor holding a session promise; otherwise tears everything down
and nulls every handle field. -/
def LiveClientState.disconnect (s : LiveClientState) : LiveClientState × List LiveEffect :=
  if s.isConnected = false ∧ s.sessionPromise = none then (s, [])
  else
    ({ inputAudioContext := none, outputAudioContext := none, stream := none,
       processor := none, source := none, nextStartTime := s.nextStartTime,
       isConnected := false, sessionPromise := none },
     [LiveEffect.stopStreamTracks, LiveEffect.closeAudioContexts, LiveEffect.closeSession])

/-- `LiveClient.connect` (liveClient.ts:88-136). `micResult` is the
outcome of `getUserMedia` (`none` = denied/thrown); `sessionResult` is the
outcome of initiating the live session (`none` = `ai.live.connect` threw).
`ctxIn`/`ctxOut`/`sess` are the fresh handles the browser would return.
Returns early, with no effects, when already connected. -/
def LiveClientState.connect (s : LiveClientState) (ctxIn ctxOut : Nat)
    (micResult : Option Nat) (sessionResult : Option Nat) :
    LiveClientState × List LiveEffect :=
  if s.isConnected then (s, [])
  else
    let s1 := { s with inputAudioContext := some ctxIn, outputAudioContext := some ctxOut }
    let effs := [LiveEffect.createAudioContext, LiveEffect.createAudioContext,
                 LiveEffect.resumeAudioContext, LiveEffect.resumeAudioContext]
    match micResult with
    | none =>
        (s1, effs ++ [LiveEffect.getUserMediaCall,
                      LiveEffect.consoleError "Microphone access denied"])
    | some m =>
        let s2 := { s1 with stream := some m }
        match sessionResult with
        | some sess =>
            ({ s2 with sessionPromise := some sess },
             effs ++ [LiveEffect.getUserMediaCall, LiveEffect.liveConnectCall])
        | none =>
            let d := s2.disconnect
            (d.1, effs ++ [LiveEffect.getUserMediaCall, LiveEffect.liveConnectCall,
                           LiveEffect.consoleError "Failed to initiate Live Connect"] ++ d.2)

/-! ## App data model (`src/types.ts` as `src/unnamed/part_001`) -/

/-- Participant roles (`'host' | 'guest' | 'ai'`). The spec's
organizer/member/agent map to host/guest/ai. -/
inductive Role
  | host
  | guest
  | ai
  deriving DecidableEq, Repr

/-- `Participant` (types.ts). `isScreenSharing` is optional in TS; an
absent field behaves as `false`. -/
structure Participant where
  id : String
  name : String
  avatarUrl : String
  isMuted : Bool
  isVideoOff : Bool
  isSpeaking : Bool
  isScreenSharing : Bool
  role : Role
  deriving DecidableEq, Repr

/-- `ViewMode` (types.ts). -/
inductive ViewMode
  | gallery
  | speaker
  | screenShare
  deriving DecidableEq, Repr

/-- A media track: its `enabled` flag and the device it was captured
from (`getSettings().deviceId`). -/
structure Track where
  enabled : Bool
  deviceId : String
  deriving DecidableEq, Repr

/-- A `MediaStream`: its audio and video tracks. -/
structure Stream where
  audioTracks : List Track
  videoTracks : List Track
  deriving DecidableEq, Repr

/-- Writes App.tsx issues against the Firebase participants node
`meetings/{meetingId}/participants/...`. -/
inductive StoreWrite
  | setParticipant (meetingId : String) (pid : String) (p : Participant)
  | updateIsMuted (meetingId : String) (pid : String) (v : Bool)
  | updateIsVideoOff (meetingId : String) (pid : String) (v : Bool)
  | updateIsScreenSharing (meetingId : String) (pid : String) (v : Bool)
  | updateRole (meetingId : String) (pid : String) (r : Role)
  | removeParticipant (meetingId : String) (pid : String)
  deriving DecidableEq, Repr

/-- Realtime-database semantics of one write applied to the contents of a
room's participants node (external roster store, spec §6). -/
def applyWrite (store : List Participant) : StoreWrite → List Participant
  | .setParticipant _ pid p => (store.filter (fun q => q.id ≠ pid)) ++ [p]
  | .updateIsMuted _ pid v => store.map (fun q => if q.id = pid then { q with isMuted := v } else q)
  | .updateIsVideoOff _ pid v => store.map (fun q => if q.id = pid then { q with isVideoOff := v } else q)
  | .updateIsScreenSharing _ pid v =>
      store.map (fun q => if q.id = pid then { q with isScreenSharing := v } else q)
  | .updateRole _ pid r => store.map (fun q => if q.id = pid then { q with role := r } else q)
  | .removeParticipant _ pid => store.filter (fun q => q.id ≠ pid)

/-- `snapshot.val()` of the participants node: `null` (`none`) when the
node is empty, else the list of participant records. -/
def snapshotOf (store : List Participant) : Option (List Participant) :=
  if store.isEmpty then none else some store

/-! ## App client state and handlers (`src/App.tsx`) -/

/-- The `step` state (App.tsx:39). -/
inductive Step
  | landing
  | nameEntry
  | lobby
  | meeting
  deriving DecidableEq, Repr

/-- The React state of `App` relevant to the verified handlers
(App.tsx:39-66). -/
structure ClientState where
  step : Step
  meetingId : String
  localRole : Role
  participants : List Participant
  activeScreenId : Option String
  viewMode : ViewMode
  localStream : Option Stream
  screenStream : Option Stream
  isMuted : Bool
  isVideoOff : Bool
  dbError : Option String
  deriving DecidableEq, Repr

/-- Externally visible actions of the App handlers. -/
inductive ClientEffect
  | alert (msg : String)
  | consoleError (msg : String)
  | consoleWarn (msg : String)
  | write (w : StoreWrite)
  | registerOnDisconnectRemove (meetingId : String) (pid : String)
  | getAiRecord (meetingId : String)
  | getUserMediaCall
  | stopLocalTracks
  | stopScreenTracks
  | disconnectLiveClient
  | clearUrlMeetingId
  deriving DecidableEq, Repr

/-- Whether an effect is a user-visible notice (an `alert`; console
output is developer-facing only). -/
def isUserNotice : ClientEffect → Bool
  | ClientEffect.alert _ => true
  | _ => false

/-- `leaveMeeting` (App.tsx:341-363): best-effort removal of the own
roster record, then a full local state reset, stopping any local media and
disconnecting the live client. -/
def leaveMeeting (mySessionId : String) (isAuthReady : Bool) (s : ClientState) :
    ClientState × List ClientEffect :=
  let removeEff :=
    if s.meetingId ≠ "" ∧ mySessionId ≠ "" ∧ isAuthReady then
      [ClientEffect.write (StoreWrite.removeParticipant s.meetingId mySessionId)]
    else []
  let stopLocal := if s.localStream.isSome then [ClientEffect.stopLocalTracks] else []
  let stopScreen := if s.screenStream.isSome then [ClientEffect.stopScreenTracks] else []
  ({ step := Step.landing, meetingId := "", localRole := Role.guest, participants := [],
     activeScreenId := none, viewMode := ViewMode.gallery,
     localStream := none, screenStream := none,
     isMuted := s.isMuted, isVideoOff := s.isVideoOff, dbError := s.dbError },
   removeEff ++ stopLocal ++ stopScreen ++
     [ClientEffect.disconnectLiveClient, ClientEffect.clearUrlMeetingId])

/-- The `onValue` participants-subscription handler (App.tsx:145-178).
`data` is `snapshot.val()`. If the own id is absent from a non-null
snapshot the client alerts and runs `leaveMeeting`; otherwise it clears a
stale active-screen focus, applies a host-issued mute to the local audio
tracks, and stores the new participant list. -/
def handleParticipantsSnapshot (mySessionId : String) (isAuthReady : Bool)
    (data : Option (List Participant)) (s : ClientState) :
    ClientState × List ClientEffect :=
  match data with
  | some participantList =>
      if ¬ participantList.any (fun p => p.id = mySessionId) then
        let r := leaveMeeting mySessionId isAuthReady s
        (r.1, ClientEffect.alert "Вы были удалены организатором или встреча завершилась." :: r.2)
      else
        let sharer := participantList.find? (fun p => p.isScreenSharing)
        let s1 :=
          if sharer.isNone ∧ s.activeScreenId.isSome then
            { s with activeScreenId := none, viewMode := ViewMode.gallery }
          else s
        let myData := participantList.find? (fun p => p.id = mySessionId)
        let s2 :=
          match myData with
          | some md =>
              if md.isMuted ∧ ¬ s1.isMuted then
                let disabledStream :=
                  s1.localStream.map (fun (st : Stream) =>
                    { st with audioTracks := st.audioTracks.map (fun (t : Track) => { t with enabled := false }) })
                { s1 with isMuted := true, localStream := disabledStream }
              else s1
          | none => s1
        ({ s2 with participants := participantList }, [])
  | none => ({ s with participants := [] }, [])

/-- `toggleMute` (App.tsx:372-379): sets every local audio track's
`enabled` to `!isMuted` (the pre-toggle value), flips `isMuted`, and
mirrors the new flag to the own roster record. -/
def toggleMute (mySessionId : String) (s : ClientState) : ClientState × List ClientEffect :=
  let s1 :=
    match s.localStream with
    | some st =>
        let st' := { st with audioTracks := st.audioTracks.map (fun (t : Track) => { t with enabled := !s.isMuted }) }
        { s with localStream := some st' }
    | none => s
  let newMuted := !s.isMuted
  ({ s1 with isMuted := newMuted },
   [ClientEffect.write (StoreWrite.updateIsMuted s.meetingId mySessionId newMuted)])

/-- `toggleVideo` (App.tsx:381-388): sets every local video track's
`enabled` to `!isVideoOff` (the pre-toggle value), flips `isVideoOff`, and
mirrors the new flag to the own roster record. -/
def toggleVideo (mySessionId : String) (s : ClientState) : ClientState × List ClientEffect :=
  let s1 :=
    match s.localStream with
    | some st =>
        let st' := { st with videoTracks := st.videoTracks.map (fun (t : Track) => { t with enabled := !s.isVideoOff }) }
        { s with localStream := some st' }
    | none => s
  let newVideoOff := !s.isVideoOff
  ({ s1 with isVideoOff := newVideoOff },
   [ClientEffect.write (StoreWrite.updateIsVideoOff s.meetingId mySessionId newVideoOff)])

/-! ## Host moderation handlers (App.tsx:455-486) -/

/-- `muteAll` (App.tsx:455-462): one `isMuted := true` update per
participant who is neither a host nor the AI and not already muted. -/
def muteAll (meetingId : String) (participants : List Participant) : List StoreWrite :=
  participants.filterMap (fun p =>
    if p.role ≠ Role.host ∧ p.role ≠ Role.ai ∧ ¬ p.isMuted then
      some (StoreWrite.updateIsMuted meetingId p.id true)
    else none)

/-- `muteParticipant` (App.tsx:464-470): toggles the target's `isMuted`
flag in the store. -/
def muteParticipant (meetingId : String) (participants : List Participant)
    (id : String) : List StoreWrite :=
  match participants.find? (fun p => p.id = id) with
  | some p => [StoreWrite.updateIsMuted meetingId id (!p.isMuted)]
  | none => []

/-- `kickParticipant` (App.tsx:472-477): after a `confirm` dialog, removes
the target's roster record. `confirmed` is the dialog's outcome. -/
def kickParticipant (meetingId : String) (confirmed : Bool) (id : String) : List StoreWrite :=
  if confirmed then [StoreWrite.removeParticipant meetingId id] else []

/-- `toggleParticipantRole` (App.tsx:479-486): swaps the target's role
between host and guest in the store. -/
def toggleParticipantRole (meetingId : String) (participants : List Participant)
    (id : String) : List StoreWrite :=
  match participants.find? (fun p => p.id = id) with
  | some p =>
      [StoreWrite.updateRole meetingId id (if p.role = Role.host then Role.guest else Role.host)]
  | none => []

/-- The three moderation kinds of the spec's command surface. -/
inductive ModerationAction
  | muteOther (targetId : String)
  | removeOther (targetId : String)
  | changeOtherRole (targetId : String)
  deriving DecidableEq, Repr

/-- The store writes attempted when a participant whose role is
`callerRole` invokes a moderation handler. The handlers
(`muteParticipant`, `kickParticipant`, `toggleParticipantRole`) take no
caller information and never read the caller's role. -/
def invokeModeration (callerRole : Role) (meetingId : String)
    (participants : List Participant) (confirmed : Bool) :
    ModerationAction → List StoreWrite
  | .muteOther t => muteParticipant meetingId participants t
  | .removeOther t => kickParticipant meetingId confirmed t
  | .changeOtherRole t => toggleParticipantRole meetingId participants t

/-- Whether the sidebar renders the moderation buttons for `target`
(App.tsx:968: `p.role !== 'ai' && p.id !== mySessionId.current &&
isLocalHost`, with `isLocalHost` from App.tsx:907-908). -/
def moderationControlsShown (participants : List Participant) (selfId : String)
    (target : Participant) : Bool :=
  let localParticipant := participants.find? (fun p => p.id = selfId)
  (target.role ≠ Role.ai : Bool) && (target.id ≠ selfId : Bool) &&
    (match localParticipant with
     | some lp => (lp.role = Role.host : Bool)
     | none => false)

/-! ## `startMeeting` (App.tsx:277-339) -/

/-- Outcome of the `set(userRef, localUser)` roster write. -/
inductive DbResult
  | ok
  | permissionDenied
  | otherError (msg : String)
  deriving DecidableEq, Repr

/-- The device-selection state and external outcomes `startMeeting`
consumes. `mediaResult` is the outcome of `getUserMedia` (`none` = threw);
`aiRecordExists` is what `get(aiRef)` reports. -/
structure StartMeetingEnv where
  isAuthReady : Bool
  userName : String
  mySessionId : String
  selectedAudioId : String
  selectedVideoId : String
  dbSetResult : DbResult
  aiRecordExists : Bool
  mediaResult : Option Stream
  deriving DecidableEq, Repr

/-- The AI participant record (`AI_PARTICIPANT` in constants.ts). -/
def AI_PARTICIPANT : Participant :=
  { id := "gemini-ai", name := "Gemini AI (Модератор)",
    avatarUrl := "https://picsum.photos/seed/gemini/200/200",
    isMuted := false, isVideoOff := false, isSpeaking := false,
    isScreenSharing := false, role := Role.ai }

/-- Whether `startMeeting` re-acquires media (App.tsx:322:
`!localStream || localStream.getAudioTracks()[0]?.getSettings().deviceId
!== selectedAudioId`; a missing first audio track compares as
`undefined`, which differs from any selected id string). -/
def needsNewStream (localStream : Option Stream) (selectedAudioId : String) : Bool :=
  match localStream with
  | none => true
  | some st =>
      match st.audioTracks.head? with
      | none => true
      | some t => t.deviceId ≠ selectedAudioId

/-- Applies the mute/camera-off flags to a freshly acquired stream
(App.tsx:330-331). -/
def applyEnabledFlags (st : Stream) (isMuted isVideoOff : Bool) : Stream :=
  { audioTracks := st.audioTracks.map (fun (t : Track) => { t with enabled := !isMuted }),
    videoTracks := st.videoTracks.map (fun (t : Track) => { t with enabled := !isVideoOff }) }

/-- `startMeeting` (App.tsx:277-339): guard on auth readiness, write the
own participant record (aborting on a database error), register the
disconnect cleanup, ensure the AI record exists when hosting, re-acquire
media when needed — a `getUserMedia` failure is only logged — and enter
the meeting. -/
def startMeeting (env : StartMeetingEnv) (s : ClientState) :
    ClientState × List ClientEffect :=
  if ¬ env.isAuthReady then
    (s, [ClientEffect.alert "Ожидание подключения к серверу..."])
  else
    let localUser : Participant :=
      { id := env.mySessionId, name := env.userName, avatarUrl := "",
        isMuted := s.isMuted, isVideoOff := s.isVideoOff, isSpeaking := false,
        isScreenSharing := false, role := s.localRole }
    let setEff := ClientEffect.write (StoreWrite.setParticipant s.meetingId env.mySessionId localUser)
    match env.dbSetResult with
    | DbResult.permissionDenied =>
        ({ s with dbError := some "PERMISSION_DENIED" }, [setEff])
    | DbResult.otherError msg =>
        (s, [setEff, ClientEffect.alert ("Ошибка подключения к базе данных: " ++ msg)])
    | DbResult.ok =>
        let effs1 := [setEff, ClientEffect.registerOnDisconnectRemove s.meetingId env.mySessionId]
        let effs2 :=
          if s.localRole = Role.host then
            effs1 ++ [ClientEffect.getAiRecord s.meetingId] ++
              (if ¬ env.aiRecordExists then
                 [ClientEffect.write (StoreWrite.setParticipant s.meetingId "gemini-ai" AI_PARTICIPANT)]
               else [])
          else effs1
        if needsNewStream s.localStream env.selectedAudioId then
          match env.mediaResult with
          | some st =>
              ({ s with localStream := some (applyEnabledFlags st s.isMuted s.isVideoOff),
                        step := Step.meeting },
               effs2 ++ [ClientEffect.getUserMediaCall])
          | none =>
              ({ s with step := Step.meeting },
               effs2 ++ [ClientEffect.getUserMediaCall,
                         ClientEffect.consoleError "Error starting meeting stream"])
        else
          ({ s with step := Step.meeting }, effs2)

/-! ## Spec-modelled peer-mesh core

The spec's selected core — Negotiation Engine, Topology Reconciler,
Peer Connection Registry, Media Track Controller — has no implementation
anywhere in the repository's sources (App.tsx only synchronises roster
flags through Firebase; no peer transport is ever constructed). The
definitions below are therefore modelled from the spec's words. -/

/-- Modelled from the spec: the Negotiation Engine's initiator tie-break
(spec §4.3). Missing from the source: no negotiation engine exists.
"compare the two PeerIds with a total order (e.g. lexicographic); the side
whose own id sorts *greater* than the peer's id is the initiator". -/
def isInitiator (selfId peerId : String) : Bool :=
  peerId < selfId

/-- Modelled from the spec: the offers sent when two peers simultaneously
decide to connect (spec §8, no-double-offer): a peer sends the offer
exactly when the tie-break designates it the initiator. -/
def sendsOffer (selfId peerId : String) : Bool :=
  isInitiator selfId peerId

/-- Modelled from the spec: the Reconciler's `wanted` set (spec §4.4
step 1): roster ids minus self and agent participants. Missing from the
source: no reconciler exists. -/
def wantedSet (roster : List Participant) (selfId : String) : Finset String :=
  ((roster.filter (fun p => p.id ≠ selfId ∧ p.role ≠ Role.ai)).map (fun p => p.id)).toFinset

/-- Modelled from the spec: one reconciliation pass (spec §4.4 steps 2-5):
create entries for `wanted − have`, remove entries for `have − wanted`,
leave the intersection alone. -/
def reconcile (regSet : Finset String) (roster : List Participant) (selfId : String) :
    Finset String :=
  (regSet ∪ (wantedSet roster selfId \ regSet)) \ (regSet \ wantedSet roster selfId)

/-- Modelled from the spec: running the Reconciler on every roster
snapshot of a sequence, starting from a registry membership `init`. -/
def runReconciler (init : Finset String) (snapshots : List (List Participant))
    (selfId : String) : Finset String :=
  snapshots.foldl (fun h r => reconcile h r selfId) init

/-- Modelled from the spec: a connection entry's outgoing video tag
(spec §3, PeerConnectionEntry). -/
inductive VideoSource
  | camera
  | screen
  deriving DecidableEq, Repr

/-- Modelled from the spec: a Peer Connection Registry entry restricted to
its outgoing video tracks. The list holds every outgoing video track
attached to the entry (the claim is that it always has exactly one). -/
structure MeshEntry where
  peerId : String
  outgoingVideo : List VideoSource
  deriving DecidableEq, Repr

/-- Modelled from the spec: registry plus the Media Track Controller's
currently active source. -/
structure MeshState where
  entries : List MeshEntry
  currentSource : VideoSource
  deriving DecidableEq, Repr

/-- Modelled from the spec: the operations that touch outgoing video
(spec §4.2 `getOrCreate`+`attachLocalTracks`, `remove`, §4.5
`setScreenSharing`, `setDeviceTracks`). Substitution maps each attached
track to the new source in place; it never appends a track. -/
inductive MeshOp
  | addPeer (pid : String)
  | removePeer (pid : String)
  | setScreenSharing (active : Bool)
  | switchDeviceTracks
  deriving DecidableEq, Repr

/-- Modelled from the spec: applying one mesh operation. -/
def applyMeshOp (s : MeshState) : MeshOp → MeshState
  | MeshOp.addPeer pid =>
      { s with entries := s.entries ++ [{ peerId := pid, outgoingVideo := [s.currentSource] }] }
  | MeshOp.removePeer pid =>
      { s with entries := s.entries.filter (fun e => e.peerId ≠ pid) }
  | MeshOp.setScreenSharing active =>
      let src := if active then VideoSource.screen else VideoSource.camera
      { entries := s.entries.map (fun (e : MeshEntry) =>
          { e with outgoingVideo := e.outgoingVideo.map (fun _ => src) }),
        currentSource := src }
  | MeshOp.switchDeviceTracks =>
      { s with entries := s.entries.map (fun (e : MeshEntry) =>
          { e with outgoingVideo := e.outgoingVideo.map (fun _ => s.currentSource) }) }

/-- Modelled from the spec: the mesh state after a sequence of operations,
starting with no entries and the camera active. -/
def runMesh (ops : List MeshOp) : MeshState :=
  ops.foldl applyMeshOp { entries := [], currentSource := VideoSource.camera }

/-! ## Base64 round-trip lemmas -/

theorem b64idx_b64chr : ∀ n < 64, b64idx (b64chr n) = n := by decide

theorem b64chr_ne_pad : ∀ n < 64, b64chr n ≠ '=' := by decide

theorem atob_btoa : ∀ l : List Nat, (∀ b ∈ l, b < 256) → atob (btoa l) = l
  | [], _ => rfl
  | [a], h => by
      have ha : a < 256 := h a (by simp)
      have h1 : a / 4 < 64 := by omega
      have h2 : a % 4 * 16 < 64 := by omega
      simp only [btoa, atob, if_pos, and_self, and_true]
      rw [b64idx_b64chr _ h1, b64idx_b64chr _ h2]
      have : a % 4 * 16 / 16 = a % 4 := by omega
      rw [this]
      simp only [List.cons.injEq, and_true]
      omega
  | [a, b], h => by
      have ha : a < 256 := h a (by simp)
      have hb : b < 256 := h b (by simp)
      have h1 : a / 4 < 64 := by omega
      have h2 : a % 4 * 16 + b / 16 < 64 := by omega
      have h3 : b % 16 * 4 < 64 := by omega
      simp only [btoa, atob]
      rw [if_neg (by simp [b64chr_ne_pad _ h3]),
          if_pos (by simp)]
      rw [b64idx_b64chr _ h1, b64idx_b64chr _ h2, b64idx_b64chr _ h3]
      simp only [List.cons.injEq, and_true]
      constructor <;> omega
  | a :: b :: c :: rest, h => by
      have ha : a < 256 := h a (by simp)
      have hb : b < 256 := h b (by simp)
      have hc : c < 256 := h c (by simp)
      have h1 : a / 4 < 64 := by omega
      have h2 : a % 4 * 16 + b / 16 < 64 := by omega
      have h3 : b % 16 * 4 + c / 64 < 64 := by omega
      have h4 : c % 64 < 64 := by omega
      have ih := atob_btoa rest (fun x hx => h x (by simp [hx]))
      simp only [btoa, atob]
      rw [if_neg (by simp [b64chr_ne_pad _ h3]),
          if_neg (by simp [b64chr_ne_pad _ h4])]
      rw [b64idx_b64chr _ h1, b64idx_b64chr _ h2, b64idx_b64chr _ h3, b64idx_b64chr _ h4]
      rw [ih]
      simp only [List.cons.injEq, and_true]
      refine ⟨by omega, by omega, by omega⟩

/-- C8: for every byte array `b`, `decode (encode b) = b` — the Base64
helpers of the AI audio bridge form a round-trip identity. -/
theorem decode_encode_roundtrip (bytes : List Nat) (h : ∀ b ∈ bytes, b < 256) :
    decode (encode bytes) = bytes := by
  have hmap : bytes.map fromCharCode = bytes := by
    induction bytes with
    | nil => rfl
    | cons x xs ih =>
        have hx : x < 256 := h x (by simp)
        simp only [List.map_cons, List.cons.injEq]
        refine ⟨?_, ih (fun y hy => h y (by simp [hy]))⟩
        simp only [fromCharCode]
        omega
  unfold decode encode
  rw [hmap]
  exact atob_btoa bytes h

/-- C8 witness: the round trip evaluated at a concrete byte array. -/
theorem decode_encode_roundtrip_witness :
    (∀ b ∈ [0, 255, 77, 128], b < 256) ∧ decode (encode [0, 255, 77, 128]) = [0, 255, 77, 128] :=
  ⟨by decide, decode_encode_roundtrip [0, 255, 77, 128] (by decide)⟩

/-! ## `downsample` (C10) -/

/-- C10: with equal rates `downsample` returns the input buffer itself;
otherwise it returns a buffer of length `round (length · outputRate / inputRate)`
whose `i`-th sample is `buffer[⌊i · inputRate / outputRate⌋]`. -/
theorem downsample_spec (buffer : List ℚ) (inputRate outputRate : ℚ)
    (hin : 0 < inputRate) (hout : 0 < outputRate) :
    (inputRate = outputRate → downsample buffer inputRate outputRate = buffer) ∧
    (inputRate ≠ outputRate →
      (downsample buffer inputRate outputRate).length
          = (jsRound ((buffer.length : ℚ) * outputRate / inputRate)).toNat ∧
      ∀ i < (downsample buffer inputRate outputRate).length,
        (downsample buffer inputRate outputRate).getD i 0
          = buffer.getD (⌊(i : ℚ) * inputRate / outputRate⌋).toNat 0) := by
  constructor
  · intro heq
    simp [downsample, heq]
  · intro hne
    have hdiv : (buffer.length : ℚ) / (inputRate / outputRate)
        = (buffer.length : ℚ) * outputRate / inputRate := div_div_eq_mul_div _ _ _
    have hlen : (downsample buffer inputRate outputRate).length
        = (jsRound ((buffer.length : ℚ) / (inputRate / outputRate))).toNat := by
      simp only [downsample, if_neg hne, List.length_map, List.length_range]
    constructor
    · rw [hlen, hdiv]
    · intro i hi
      rw [hlen] at hi
      have hstep : ∀ j : ℕ, (j : ℚ) * (inputRate / outputRate) = (j : ℚ) * inputRate / outputRate :=
        fun j => (mul_div_assoc _ _ _).symm
      simp only [downsample, if_neg hne]
      rw [List.getD_eq_getElem?_getD, List.getElem?_map, List.getElem?_range hi]
      simp [hstep]

/-- C10 witness: downsampling a 4-sample buffer from rate 4 to rate 2. -/
theorem downsample_spec_witness :
    ((0 : ℚ) < 4 ∧ (0 : ℚ) < 2) ∧
    (((4 : ℚ) = 2 → downsample [10, 20, 30, 40] 4 2 = [10, 20, 30, 40]) ∧
     ((4 : ℚ) ≠ 2 →
       (downsample [10, 20, 30, 40] 4 2).length
           = (jsRound ((([10, 20, 30, 40] : List ℚ).length : ℚ) * 2 / 4)).toNat ∧
       ∀ i < (downsample [10, 20, 30, 40] 4 2).length,
         (downsample [10, 20, 30, 40] 4 2).getD i 0
           = ([10, 20, 30, 40] : List ℚ).getD (⌊(i : ℚ) * 4 / 2⌋).toNat 0)) :=
  ⟨by norm_num, downsample_spec [10, 20, 30, 40] 4 2 (by norm_num) (by norm_num)⟩

/-! ## C9: `connect` on an already-connected client -/

/-- C9: calling `connect` while `isConnected` returns immediately with the
state unchanged and no external effects: no audio context is created, no
microphone stream is acquired, no live session is started. -/
theorem connect_idempotent_when_connected (s : LiveClientState) (ctxIn ctxOut : Nat)
    (micResult sessionResult : Option Nat) (h : s.isConnected = true) :
    s.connect ctxIn ctxOut micResult sessionResult = (s, []) := by
  simp [LiveClientState.connect, h]

/-- C9 witness: a concrete connected client state. -/
theorem connect_idempotent_when_connected_witness :
    ({ LiveClientState.initial with isConnected := true } : LiveClientState).isConnected = true ∧
    ({ LiveClientState.initial with isConnected := true } : LiveClientState).connect 1 2 (some 3) (some 4)
      = ({ LiveClientState.initial with isConnected := true }, []) :=
  ⟨rfl, connect_idempotent_when_connected _ 1 2 (some 3) (some 4) rfl⟩

/-! ## C1: initiator tie-break -/

/-- C1: for two distinct PeerIds exactly one side sends the offer — never
both, never neither — and the sender is exactly the side whose own id
sorts greater than the peer's under the lexicographic order. -/
theorem tiebreak_exactly_one_offer (a b : String) (h : a ≠ b) :
    (sendsOffer a b = true ∧ sendsOffer b a = false ∨
     sendsOffer a b = false ∧ sendsOffer b a = true) ∧
    (sendsOffer a b = true ↔ b < a) := by
  refine ⟨?_, by simp [sendsOffer, isInitiator]⟩
  rcases lt_or_gt_of_ne h with hab | hba
  · right
    constructor <;> simp [sendsOffer, isInitiator, hab, not_lt.mpr hab.le]
  · left
    constructor <;> simp [sendsOffer, isInitiator, hba, not_lt.mpr hba.le]

/-- C1 witness: the tie-break at the concrete pair "beta"/"alpha"
("beta" sorts greater, so "beta" is the initiator). -/
theorem tiebreak_exactly_one_offer_witness :
    ("beta" : String) ≠ "alpha" ∧
    ((sendsOffer "beta" "alpha" = true ∧ sendsOffer "alpha" "beta" = false ∨
      sendsOffer "beta" "alpha" = false ∧ sendsOffer "alpha" "beta" = true) ∧
     (sendsOffer "beta" "alpha" = true ↔ ("alpha" : String) < "beta")) :=
  ⟨by decide, tiebreak_exactly_one_offer "beta" "alpha" (by decide)⟩

/-! ## C2: reconciler convergence and idempotence -/

theorem reconcile_eq_wanted (h : Finset String) (R : List Participant) (selfId : String) :
    reconcile h R selfId = wantedSet R selfId := by
  ext x
  simp only [reconcile, Finset.mem_sdiff, Finset.mem_union]
  tauto

theorem wantedSet_eq_diff (R : List Participant) (selfId : String)
    (hnodup : (R.map (fun p => p.id)).Nodup) :
    wantedSet R selfId
      = (R.map (fun p => p.id)).toFinset \
          (insert selfId (((R.filter (fun p => p.role = Role.ai)).map (fun p => p.id)).toFinset)) := by
  have hinj := List.inj_on_of_nodup_map hnodup
  ext x
  simp only [wantedSet, List.mem_toFinset, List.mem_map, List.mem_filter, Finset.mem_sdiff,
    Finset.mem_insert, decide_eq_true_eq, not_or, not_exists, not_and]
  constructor
  · rintro ⟨p, ⟨hpR, hp⟩, rfl⟩
    refine ⟨⟨p, hpR, rfl⟩, hp.1, ?_⟩
    rintro q ⟨hqR, hq⟩ hid
    exact hp.2 (by rw [hinj hpR hqR hid.symm]; exact hq)
  · rintro ⟨⟨p, hpR, rfl⟩, hself, hai⟩
    refine ⟨p, ⟨hpR, hself, ?_⟩, rfl⟩
    intro hrole
    exact hai p ⟨hpR, hrole⟩ rfl

/-- C2: for any sequence of roster snapshots ending in a stable roster
`R`, the registry membership after reconciliation equals `R` minus the
local participant and the agent (AI) participants, regardless of the
earlier snapshots or the initial membership; re-running reconciliation on
the same snapshot changes nothing. -/
theorem reconciler_convergence (init : Finset String) (hist : List (List Participant))
    (R : List Participant) (selfId : String)
    (hnodup : (R.map (fun p => p.id)).Nodup) :
    runReconciler init (hist ++ [R]) selfId
        = (R.map (fun p => p.id)).toFinset \
            (insert selfId (((R.filter (fun p => p.role = Role.ai)).map (fun p => p.id)).toFinset)) ∧
    reconcile (runReconciler init (hist ++ [R]) selfId) R selfId
        = runReconciler init (hist ++ [R]) selfId := by
  have hrun : runReconciler init (hist ++ [R]) selfId = wantedSet R selfId := by
    simp only [runReconciler, List.foldl_append, List.foldl_cons, List.foldl_nil]
    exact reconcile_eq_wanted _ _ _
  refine ⟨?_, ?_⟩
  · rw [hrun]; exact wantedSet_eq_diff R selfId hnodup
  · rw [hrun, reconcile_eq_wanted]

/-- C2 witness: a concrete history ending in a stable roster. -/
theorem reconciler_convergence_witness :
    (([{ id := "a", name := "A", avatarUrl := "", isMuted := false, isVideoOff := false,
         isSpeaking := false, isScreenSharing := false, role := Role.host },
       { id := "b", name := "B", avatarUrl := "", isMuted := false, isVideoOff := false,
         isSpeaking := false, isScreenSharing := false, role := Role.guest },
       AI_PARTICIPANT ] : List Participant).map (fun p => p.id)).Nodup ∧
    runReconciler {"stale"} [[],
        [{ id := "a", name := "A", avatarUrl := "", isMuted := false, isVideoOff := false,
           isSpeaking := false, isScreenSharing := false, role := Role.host },
         { id := "b", name := "B", avatarUrl := "", isMuted := false, isVideoOff := false,
           isSpeaking := false, isScreenSharing := false, role := Role.guest },
         AI_PARTICIPANT ]] "a"
      = (([{ id := "a", name := "A", avatarUrl := "", isMuted := false, isVideoOff := false,
             isSpeaking := false, isScreenSharing := false, role := Role.host },
           { id := "b", name := "B", avatarUrl := "", isMuted := false, isVideoOff := false,
             isSpeaking := false, isScreenSharing := false, role := Role.guest },
           AI_PARTICIPANT ] : List Participant).map (fun p => p.id)).toFinset \
          (insert "a" ((([{ id := "a", name := "A", avatarUrl := "", isMuted := false,
                            isVideoOff := false, isSpeaking := false, isScreenSharing := false,
                            role := Role.host },
                          { id := "b", name := "B", avatarUrl := "", isMuted := false,
                            isVideoOff := false, isSpeaking := false, isScreenSharing := false,
                            role := Role.guest },
                          AI_PARTICIPANT ] : List Participant).filter
                            (fun p => p.role = Role.ai)).map (fun p => p.id)).toFinset) :=
  ⟨by decide, (reconciler_convergence {"stale"} [[]] _ "a" (by decide)).1⟩

/-! ## C3: single outgoing video source per entry -/

theorem mesh_invariant (ops : List MeshOp) (s : MeshState)
    (hs : ∀ e ∈ s.entries, e.outgoingVideo = [s.currentSource]) :
    ∀ e ∈ (ops.foldl applyMeshOp s).entries,
      e.outgoingVideo = [(ops.foldl applyMeshOp s).currentSource] := by
  induction ops generalizing s with
  | nil => simpa using hs
  | cons op rest ih =>
      simp only [List.foldl_cons]
      apply ih
      intro e he
      cases op with
      | addPeer pid =>
          simp only [applyMeshOp] at he ⊢
          rcases List.mem_append.mp he with h1 | h1
          · exact hs e h1
          · simp only [List.mem_singleton] at h1
            subst h1; rfl
      | removePeer pid =>
          simp only [applyMeshOp] at he ⊢
          exact hs e (List.mem_of_mem_filter he)
      | setScreenSharing active =>
          simp only [applyMeshOp, List.mem_map] at he
          obtain ⟨e', he', rfl⟩ := he
          simp [applyMeshOp, hs e' he']
      | switchDeviceTracks =>
          simp only [applyMeshOp, List.mem_map] at he
          obtain ⟨e', he', rfl⟩ := he
          simp [applyMeshOp, hs e' he']

/-- C3: after any sequence of mesh operations, every connection entry
holds exactly one outgoing video track and it is the currently active
source (camera XOR screen); activation or deactivation of screen sharing
substitutes the track on every entry and never yields an entry with two
outgoing video tracks. -/
theorem single_video_source (ops : List MeshOp) :
    ∀ e ∈ (runMesh ops).entries,
      e.outgoingVideo = [(runMesh ops).currentSource] ∧ e.outgoingVideo.length = 1 := by
  intro e he
  have h := mesh_invariant ops { entries := [], currentSource := VideoSource.camera }
    (by intro e' he'; simp at he') e he
  exact ⟨h, by rw [h]; rfl⟩

/-- C3 witness: a concrete operation sequence and entry. -/
theorem single_video_source_witness :
    ({ peerId := "p", outgoingVideo := [VideoSource.screen] } : MeshEntry)
        ∈ (runMesh [MeshOp.addPeer "p", MeshOp.setScreenSharing true]).entries ∧
    (({ peerId := "p", outgoingVideo := [VideoSource.screen] } : MeshEntry).outgoingVideo
        = [(runMesh [MeshOp.addPeer "p", MeshOp.setScreenSharing true]).currentSource] ∧
     ({ peerId := "p", outgoingVideo := [VideoSource.screen] } : MeshEntry).outgoingVideo.length = 1) :=
  ⟨by decide, single_video_source [MeshOp.addPeer "p", MeshOp.setScreenSharing true] _ (by decide)⟩

/-! ## C4: moderation authorization -/

/-- C4 counterexample: a guest's invocation of mute-other is not rejected —
a store write is still attempted. -/
theorem moderation_guest_write_attempted :
    ¬ (invokeModeration Role.guest "m"
        [{ id := "x", name := "X", avatarUrl := "", isMuted := false, isVideoOff := false,
           isSpeaking := false, isScreenSharing := false, role := Role.guest }] true
        (ModerationAction.muteOther "x") = []) := by decide

/-- C4 amended: the command layer performs no caller-role check — a
moderation invocation by a non-organizer attempts exactly the writes an
organizer's invocation would; authorization gating exists only in the UI,
which renders the moderation controls only when the local participant's
role is host. -/
theorem moderation_no_command_layer_check (callerRole : Role) (h : callerRole ≠ Role.host)
    (meetingId : String) (participants : List Participant) (confirmed : Bool)
    (a : ModerationAction) :
    invokeModeration callerRole meetingId participants confirmed a
        = invokeModeration Role.host meetingId participants confirmed a ∧
    (∀ selfId target, moderationControlsShown participants selfId target = true →
       ∃ lp, participants.find? (fun p => p.id = selfId) = some lp ∧ lp.role = Role.host) := by
  refine ⟨by cases a <;> rfl, ?_⟩
  intro selfId target hshow
  simp only [moderationControlsShown, Bool.and_eq_true] at hshow
  cases hfind : participants.find? (fun p => p.id = selfId) with
  | none => rw [hfind] at hshow; simp at hshow
  | some lp =>
      rw [hfind] at hshow
      exact ⟨lp, rfl, by simpa using hshow.2⟩

/-- C4 witness for the amended theorem. -/
theorem moderation_no_command_layer_check_witness :
    (Role.guest ≠ Role.host) ∧
    (invokeModeration Role.guest "m" [] true (ModerationAction.removeOther "x")
        = invokeModeration Role.host "m" [] true (ModerationAction.removeOther "x") ∧
     (∀ selfId target, moderationControlsShown [] selfId target = true →
        ∃ lp, ([] : List Participant).find? (fun p => p.id = selfId) = some lp ∧
              lp.role = Role.host)) :=
  ⟨by decide, moderation_no_command_layer_check Role.guest (by decide) "m" [] true
      (ModerationAction.removeOther "x")⟩

/-! ## C5: the mute toggle -/

/-- C5: evaluating `toggleMute` at the failing input — an unmuted client
with one enabled audio track. The toggle leaves the local stream entirely
unchanged (the track stays enabled) while `isMuted` becomes true, and it
writes the new flag to the own roster record: the track is enabled while
the participant is muted, contradicting the claimed enabled-iff-not-muted
postcondition. -/
theorem toggleMute_failing_input_eval :
    (toggleMute "me"
      { step := Step.meeting, meetingId := "m", localRole := Role.guest, participants := [],
        activeScreenId := none, viewMode := ViewMode.gallery,
        localStream := some { audioTracks := [{ enabled := true, deviceId := "d" }],
                              videoTracks := [] },
        screenStream := none, isMuted := false, isVideoOff := false, dbError := none }).1.isMuted
      = true ∧
    (toggleMute "me"
      { step := Step.meeting, meetingId := "m", localRole := Role.guest, participants := [],
        activeScreenId := none, viewMode := ViewMode.gallery,
        localStream := some { audioTracks := [{ enabled := true, deviceId := "d" }],
                              videoTracks := [] },
        screenStream := none, isMuted := false, isVideoOff := false, dbError := none }).1.localStream
      = some { audioTracks := [{ enabled := true, deviceId := "d" }], videoTracks := [] } ∧
    (toggleMute "me"
      { step := Step.meeting, meetingId := "m", localRole := Role.guest, participants := [],
        activeScreenId := none, viewMode := ViewMode.gallery,
        localStream := some { audioTracks := [{ enabled := true, deviceId := "d" }],
                              videoTracks := [] },
        screenStream := none, isMuted := false, isVideoOff := false, dbError := none }).2
      = [ClientEffect.write (StoreWrite.updateIsMuted "m" "me" true)] := by
  refine ⟨rfl, rfl, rfl⟩

/-! ## C6: moderation removal scenario -/

/-- C6: when an organizer kicks participant `X` (confirmed dialog), `X`'s
roster record is removed; `X`'s own client, on its next snapshot, finds
its id absent and runs the leave cleanup (state reset to landing, presence
removal attempted, local media stopped); and every client's next snapshot
no longer lists `X`. -/
theorem kick_scenario (mid xId : String) (store : List Participant)
    (organizer : Participant) (hmem : organizer ∈ store) (hne : organizer.id ≠ xId)
    (sX : ClientState) (hmid : sX.meetingId ≠ "") (hx : xId ≠ "")
    (newStore : List Participant)
    (hdef : newStore = (kickParticipant mid true xId).foldl applyWrite store) :
    (∀ p ∈ newStore, p.id ≠ xId) ∧
    ((handleParticipantsSnapshot xId true (snapshotOf newStore) sX).1.step = Step.landing ∧
     (handleParticipantsSnapshot xId true (snapshotOf newStore) sX).1.participants = [] ∧
     (handleParticipantsSnapshot xId true (snapshotOf newStore) sX).1.localStream = none ∧
     (handleParticipantsSnapshot xId true (snapshotOf newStore) sX).1.screenStream = none ∧
     ClientEffect.write (StoreWrite.removeParticipant sX.meetingId xId)
         ∈ (handleParticipantsSnapshot xId true (snapshotOf newStore) sX).2 ∧
     (sX.localStream.isSome = true →
        ClientEffect.stopLocalTracks
          ∈ (handleParticipantsSnapshot xId true (snapshotOf newStore) sX).2)) ∧
    (∀ (yId : String) (sY : ClientState),
       ∀ p ∈ (handleParticipantsSnapshot yId true (snapshotOf newStore) sY).1.participants,
         p.id ≠ xId) := by
  have hns : newStore = store.filter (fun q => q.id ≠ xId) := by
    rw [hdef]; rfl
  have hall : ∀ p ∈ newStore, p.id ≠ xId := by
    rw [hns]
    intro p hp
    simpa using List.of_mem_filter hp
  have horg : organizer ∈ newStore := by
    rw [hns]
    exact List.mem_filter.mpr ⟨hmem, by simpa using hne⟩
  have hnonempty : newStore ≠ [] := List.ne_nil_of_mem horg
  have hsnap : snapshotOf newStore = some newStore := by
    unfold snapshotOf
    rw [if_neg]
    simpa [List.isEmpty_iff] using hnonempty
  have hanyX : newStore.any (fun p => p.id = xId) = false := by
    simp only [List.any_eq_false, decide_eq_true_eq]
    exact hall
  have hX : handleParticipantsSnapshot xId true (snapshotOf newStore) sX
      = ((leaveMeeting xId true sX).1,
         ClientEffect.alert "Вы были удалены организатором или встреча завершилась."
           :: (leaveMeeting xId true sX).2) := by
    rw [hsnap]
    simp only [handleParticipantsSnapshot]
    rw [if_pos (by simp [hanyX])]
  refine ⟨hall, ?_, ?_⟩
  · rw [hX]
    refine ⟨rfl, rfl, rfl, rfl, ?_, ?_⟩
    · simp [leaveMeeting, hmid, hx]
    · intro hsome
      simp [leaveMeeting, hsome]
  · intro yId sY p hp
    rw [hsnap] at hp
    by_cases hy : newStore.any (fun q => q.id = yId) = true
    · simp only [handleParticipantsSnapshot] at hp
      rw [if_neg (by simp [hy])] at hp
      exact hall p hp
    · simp only [handleParticipantsSnapshot] at hp
      rw [if_pos (by simpa using hy)] at hp
      simp [leaveMeeting] at hp

/-- C6 witness: a two-person meeting where the organizer kicks "x". -/
theorem kick_scenario_witness :
    (let org : Participant :=
       { id := "o", name := "O", avatarUrl := "", isMuted := false, isVideoOff := false,
         isSpeaking := false, isScreenSharing := false, role := Role.host }
     let px : Participant :=
       { id := "x", name := "X", avatarUrl := "", isMuted := false, isVideoOff := false,
         isSpeaking := false, isScreenSharing := false, role := Role.guest }
     let sX : ClientState :=
       { step := Step.meeting, meetingId := "m", localRole := Role.guest,
         participants := [org, px], activeScreenId := none, viewMode := ViewMode.gallery,
         localStream := some { audioTracks := [{ enabled := true, deviceId := "d" }],
                               videoTracks := [] },
         screenStream := none, isMuted := false, isVideoOff := false, dbError := none }
     let newStore := (kickParticipant "m" true "x").foldl applyWrite [org, px]
     (∀ p ∈ newStore, p.id ≠ "x") ∧
     ((handleParticipantsSnapshot "x" true (snapshotOf newStore) sX).1.step = Step.landing ∧
      (handleParticipantsSnapshot "x" true (snapshotOf newStore) sX).1.participants = [] ∧
      (handleParticipantsSnapshot "x" true (snapshotOf newStore) sX).1.localStream = none ∧
      (handleParticipantsSnapshot "x" true (snapshotOf newStore) sX).1.screenStream = none ∧
      ClientEffect.write (StoreWrite.removeParticipant sX.meetingId "x")
          ∈ (handleParticipantsSnapshot "x" true (snapshotOf newStore) sX).2 ∧
      (sX.localStream.isSome = true →
         ClientEffect.stopLocalTracks
           ∈ (handleParticipantsSnapshot "x" true (snapshotOf newStore) sX).2)) ∧
     (∀ (yId : String) (sY : ClientState),
        ∀ p ∈ (handleParticipantsSnapshot yId true (snapshotOf newStore) sY).1.participants,
          p.id ≠ "x")) :=
  kick_scenario "m" "x"
    [{ id := "o", name := "O", avatarUrl := "", isMuted := false, isVideoOff := false,
       isSpeaking := false, isScreenSharing := false, role := Role.host },
     { id := "x", name := "X", avatarUrl := "", isMuted := false, isVideoOff := false,
       isSpeaking := false, isScreenSharing := false, role := Role.guest }]
    { id := "o", name := "O", avatarUrl := "", isMuted := false, isVideoOff := false,
      isSpeaking := false, isScreenSharing := false, role := Role.host }
    (by decide) (by decide)
    { step := Step.meeting, meetingId := "m", localRole := Role.guest,
      participants :=
        [{ id := "o", name := "O", avatarUrl := "", isMuted := false, isVideoOff := false,
           isSpeaking := false, isScreenSharing := false, role := Role.host },
         { id := "x", name := "X", avatarUrl := "", isMuted := false, isVideoOff := false,
           isSpeaking := false, isScreenSharing := false, role := Role.guest }],
      activeScreenId := none, viewMode := ViewMode.gallery,
      localStream := some { audioTracks := [{ enabled := true, deviceId := "d" }],
                            videoTracks := [] },
      screenStream := none, isMuted := false, isVideoOff := false, dbError := none }
    (by decide) (by decide) _ rfl

/-! ## C7: media-acquisition failure while joining -/

/-- C7 counterexample: with auth ready and the roster write succeeding but
`getUserMedia` failing, joining completes (the client enters the meeting)
yet the effect trace contains no user-visible notice — the claim's
"surfaced to the user as a notice" is false at this input. -/
theorem startMeeting_no_user_notice :
    ¬ ((startMeeting
        { isAuthReady := true, userName := "U", mySessionId := "me",
          selectedAudioId := "a", selectedVideoId := "v", dbSetResult := DbResult.ok,
          aiRecordExists := true, mediaResult := none }
        { step := Step.lobby, meetingId := "m", localRole := Role.guest, participants := [],
          activeScreenId := none, viewMode := ViewMode.gallery, localStream := none,
          screenStream := none, isMuted := false, isVideoOff := false,
          dbError := none }).2.any isUserNotice = true) ∧
    (startMeeting
        { isAuthReady := true, userName := "U", mySessionId := "me",
          selectedAudioId := "a", selectedVideoId := "v", dbSetResult := DbResult.ok,
          aiRecordExists := true, mediaResult := none }
        { step := Step.lobby, meetingId := "m", localRole := Role.guest, participants := [],
          activeScreenId := none, viewMode := ViewMode.gallery, localStream := none,
          screenStream := none, isMuted := false, isVideoOff := false,
          dbError := none }).1.step = Step.meeting := by
  refine ⟨by decide, rfl⟩

/-- C7 amended: a `getUserMedia` failure during `startMeeting` is never
fatal — the participant record is written, the client still enters the
meeting, and the local stream is left as it was (possibly absent) — but
the failure is only logged to the developer console; no user-visible
notice is produced. -/
theorem acquisition_failure_nonfatal (env : StartMeetingEnv) (s : ClientState)
    (hauth : env.isAuthReady = true) (hdb : env.dbSetResult = DbResult.ok)
    (hmedia : env.mediaResult = none) :
    (startMeeting env s).1.step = Step.meeting ∧
    ClientEffect.write (StoreWrite.setParticipant s.meetingId env.mySessionId
        { id := env.mySessionId, name := env.userName, avatarUrl := "",
          isMuted := s.isMuted, isVideoOff := s.isVideoOff, isSpeaking := false,
          isScreenSharing := false, role := s.localRole }) ∈ (startMeeting env s).2 ∧
    (startMeeting env s).1.localStream = s.localStream ∧
    (needsNewStream s.localStream env.selectedAudioId = true →
       ClientEffect.consoleError "Error starting meeting stream" ∈ (startMeeting env s).2) ∧
    (startMeeting env s).2.any isUserNotice = false := by
  by_cases hhost : s.localRole = Role.host <;>
    by_cases hai : env.aiRecordExists = true <;>
      by_cases hneed : needsNewStream s.localStream env.selectedAudioId = true <;>
        simp [startMeeting, hauth, hdb, hmedia, hhost, hai, hneed, isUserNotice]

/-- C7 witness for the amended theorem. -/
theorem acquisition_failure_nonfatal_witness :
    (({ isAuthReady := true, userName := "U", mySessionId := "me",
        selectedAudioId := "a", selectedVideoId := "v", dbSetResult := DbResult.ok,
        aiRecordExists := true, mediaResult := none } : StartMeetingEnv).isAuthReady = true ∧
     ({ isAuthReady := true, userName := "U", mySessionId := "me",
        selectedAudioId := "a", selectedVideoId := "v", dbSetResult := DbResult.ok,
        aiRecordExists := true, mediaResult := none } : StartMeetingEnv).dbSetResult
        = DbResult.ok ∧
     ({ isAuthReady := true, userName := "U", mySessionId := "me",
        selectedAudioId := "a", selectedVideoId := "v", dbSetResult := DbResult.ok,
        aiRecordExists := true, mediaResult := none } : StartMeetingEnv).mediaResult = none) ∧
    (startMeeting
        { isAuthReady := true, userName := "U", mySessionId := "me",
          selectedAudioId := "a", selectedVideoId := "v", dbSetResult := DbResult.ok,
          aiRecordExists := true, mediaResult := none }
        { step := Step.lobby, meetingId := "m", localRole := Role.guest, participants := [],
          activeScreenId := none, viewMode := ViewMode.gallery, localStream := none,
          screenStream := none, isMuted := false, isVideoOff := false,
          dbError := none }).1.step = Step.meeting :=
  ⟨⟨rfl, rfl, rfl⟩,
   (acquisition_failure_nonfatal _
      { step := Step.lobby, meetingId := "m", localRole := Role.guest, participants := [],
        activeScreenId := none, viewMode := ViewMode.gallery, localStream := none,
        screenStream := none, isMuted := false, isVideoOff := false,
        dbError := none } rfl rfl rfl).1⟩

end Hype
